import Mathlib

/-!
# Verification of the fact-buffer relay (src/main.go)

A shallow embedding of the Go program `main.go`: an HTTP ingress that
validates multipart-form fact submissions and appends them to a Kafka
topic, and a consumer-group worker whose per-partition claim loop decodes
each message, forwards it to a downstream API as a form-encoded POST, and
marks (commits) the message's offset only after the downstream response
decodes to JSON with `STATUS == "OK"`.

Go `int` is modelled as unbounded `Int` (no claim here depends on 64-bit
overflow), JSON documents as an inductive `Json` value, the multipart form
as an association list with `FormValue` lookup semantics (first value,
empty string when absent), and the two event loops as functions over
explicit traces of events.
-/

/-- JSON values, as far as this program produces or inspects them:
strings, integers, objects (ordered field lists, later duplicates win as
in Go's `map` decoding), and `null`. -/
inductive Json where
  | null
  | str (s : String)
  | int (n : Int)
  | obj (fields : List (String × Json))

/-- The `Message` struct of `main.go` (the Fact Record): ten fields, three
required strings, one required timestamp string, three required ints
(`validate:"required"` tags), two optional ints and one optional string. -/
structure Message where
  PeriodStart : String
  PeriodEnd : String
  PeriodKey : String
  IndicatorToMoID : Int
  IndicatorToMoFactID : Int
  Value : Int
  FactTime : String
  IsPlan : Int
  AuthUserID : Int
  Comment : String
deriving DecidableEq

/-- `json.Marshal` of a `Message`: a JSON object with the struct's
`json:"..."` keys in declaration order. -/
def Message.toJson (m : Message) : Json :=
  .obj [("period_start", .str m.PeriodStart),
        ("period_end", .str m.PeriodEnd),
        ("period_key", .str m.PeriodKey),
        ("indicator_to_mo_id", .int m.IndicatorToMoID),
        ("indicator_to_mo_fact_id", .int m.IndicatorToMoFactID),
        ("value", .int m.Value),
        ("fact_time", .str m.FactTime),
        ("is_plan", .int m.IsPlan),
        ("auth_user_id", .int m.AuthUserID),
        ("comment", .str m.Comment)]

/-- Field lookup in a decoded JSON object. Go decodes objects by reading
fields in order with later occurrences overwriting earlier ones, so the
last binding of a key wins. -/
def jsonObjGet (fields : List (String × Json)) (k : String) : Option Json :=
  fields.reverse.lookup k

/-- `json.Unmarshal` of one string-typed struct field: absent keys keep the
zero value `""`, JSON `null` is a no-op (also `""`), a JSON string is taken
as is, and any other JSON type is an unmarshal error. -/
def getStringField (fields : List (String × Json)) (k : String) : Option String :=
  match jsonObjGet fields k with
  | none => some ""
  | some .null => some ""
  | some (.str s) => some s
  | some _ => none

/-- `json.Unmarshal` of one int-typed struct field: absent keys keep the
zero value `0`, JSON `null` is a no-op (also `0`), a JSON integer is taken
as is, and any other JSON type is an unmarshal error. -/
def getIntField (fields : List (String × Json)) (k : String) : Option Int :=
  match jsonObjGet fields k with
  | none => some 0
  | some .null => some 0
  | some (.int n) => some n
  | some _ => none

/-- `json.Unmarshal(message.Value, &data)` for `data : Message`: the
payload must be a JSON object; each struct field is read by its JSON key
(exact-match keys — this program's own payloads always carry the exact
keys); a type mismatch on any field is an error. -/
def Message.fromJson? : Json → Option Message
  | .obj fields => do
      let periodStart ← getStringField fields "period_start"
      let periodEnd ← getStringField fields "period_end"
      let periodKey ← getStringField fields "period_key"
      let indicatorToMoId ← getIntField fields "indicator_to_mo_id"
      let indicatorToMoFactId ← getIntField fields "indicator_to_mo_fact_id"
      let value ← getIntField fields "value"
      let factTime ← getStringField fields "fact_time"
      let isPlan ← getIntField fields "is_plan"
      let authUserId ← getIntField fields "auth_user_id"
      let comment ← getStringField fields "comment"
      pure { PeriodStart := periodStart, PeriodEnd := periodEnd,
             PeriodKey := periodKey, IndicatorToMoID := indicatorToMoId,
             IndicatorToMoFactID := indicatorToMoFactId, Value := value,
             FactTime := factTime, IsPlan := isPlan,
             AuthUserID := authUserId, Comment := comment }
  | _ => none

/-- C5: For every Fact Record, serializing it to the JSON queue payload
(`json.Marshal` in `produceMessage`) and decoding that payload back
(`json.Unmarshal` in `ConsumeClaim`) yields a Fact Record equal to the
original in all ten fields. -/
theorem c5_serialization_roundtrip (m : Message) :
    Message.fromJson? (Message.toJson m) = some m := rfl

/-! ## HTTP ingress (`startHTTPServer`, the `POST /facts` handler) -/

/-- The parsed multipart form: an ordered list of field name / value
pairs. -/
abbrev Form := List (String × String)

/-- `r.FormValue(key)`: the first value for the key, or the empty string
when the field is absent. -/
def formValue (form : Form) (k : String) : String :=
  (form.lookup k).getD ""

/-- Digit-string accumulator for `strconv.Atoi`: reads decimal digits,
fails on any non-digit. -/
def digitsVal : Nat → List Char → Option Nat
  | acc, [] => some acc
  | acc, c :: cs =>
      if c.isDigit then digitsVal (acc * 10 + (c.toNat - 48)) cs else none

/-- `strconv.Atoi`: an optional single leading `+` or `-` followed by at
least one decimal digit; anything else (in particular the empty string of
an absent form field) is an error. 64-bit range overflow, which Go also
rejects, is not modelled — no claim depends on it. -/
def atoi? (s : String) : Option Int :=
  match s.data with
  | [] => none
  | '+' :: [] => none
  | '-' :: [] => none
  | '+' :: cs => (digitsVal 0 cs).map Int.ofNat
  | '-' :: cs => (digitsVal 0 cs).map (fun n => -(n : Int))
  | cs => (digitsVal 0 cs).map Int.ofNat

/-- The `validate:"required"` marker of `go-playground/validator` on a
string field: fails exactly on the zero value `""`. -/
def requiredString (s : String) : Bool := s ≠ ""

/-- The `validate:"required"` marker on an int field: fails exactly on the
zero value `0`. -/
def requiredInt (n : Int) : Bool := n ≠ 0

/-- `validate.Struct(message)`: the conjunction of the struct's
`validate:"required"` tags, in declaration order. `IndicatorToMoFactID`,
`IsPlan` and `Comment` carry no tag and are not checked. -/
def validateMessage (m : Message) : Bool :=
  requiredString m.PeriodStart && requiredString m.PeriodEnd &&
  requiredString m.PeriodKey && requiredInt m.IndicatorToMoID &&
  requiredInt m.Value && requiredString m.FactTime &&
  requiredInt m.AuthUserID

/-- The `Message` value the handler assembles: string fields straight from
the form, int fields from the five successful `strconv.Atoi` results. -/
def buildMessage (form : Form) (iMo iFact v ip uid : Int) : Message :=
  { PeriodStart := formValue form "period_start",
    PeriodEnd := formValue form "period_end",
    PeriodKey := formValue form "period_key",
    IndicatorToMoID := iMo, IndicatorToMoFactID := iFact, Value := v,
    FactTime := formValue form "fact_time", IsPlan := ip,
    AuthUserID := uid, Comment := formValue form "comment" }

/-- The handler's HTTP response: `http.Error` with 400 or 500 and a
plain-text body, or a 200 with a JSON body. -/
inductive HttpResponse where
  | badRequest (body : String)
  | internalError (body : String)
  | okJson (body : Json)

/-- The status code each response carries on the wire. -/
def HttpResponse.statusCode : HttpResponse → Nat
  | .badRequest _ => 400
  | .internalError _ => 500
  | .okJson _ => 200

/-- One call's observable outcome: the HTTP response and the list of
payloads appended to the queue topic during the call. -/
structure HandlerOutcome where
  response : HttpResponse
  produced : List Json

/-- The `POST /facts` handler body, after a successful
`ParseMultipartForm`: extract the string fields, `Atoi`-parse the five int
fields in program order with an early 400 on the first failure, run
`validate.Struct`, then `produceMessage` (marshal + synchronous send, the
send outcome is the environment parameter `sendErr`, `none` on success). -/
def factsHandler (form : Form) (sendErr : Option String) : HandlerOutcome :=
  match atoi? (formValue form "indicator_to_mo_id") with
  | none => ⟨.badRequest "Invalid indicator_to_mo_id", []⟩
  | some iMo =>
    match atoi? (formValue form "indicator_to_mo_fact_id") with
    | none => ⟨.badRequest "Invalid indicator_to_mo_fact_id", []⟩
    | some iFact =>
      match atoi? (formValue form "value") with
      | none => ⟨.badRequest "Invalid value", []⟩
      | some v =>
        match atoi? (formValue form "is_plan") with
        | none => ⟨.badRequest "Invalid is_plan", []⟩
        | some ip =>
          match atoi? (formValue form "auth_user_id") with
          | none => ⟨.badRequest "Invalid auth_user_id", []⟩
          | some uid =>
            let message := buildMessage form iMo iFact v ip uid
            if validateMessage message then
              match sendErr with
              | some e => ⟨.internalError ("Error producing message: " ++ e), []⟩
              | none => ⟨.okJson (.obj [("status", .str "ok")]),
                         [Message.toJson message]⟩
            else ⟨.badRequest "Validation error", []⟩

/-! ## Ingress claim statements and example submissions -/

/-- A required field is bad in the sense of C3: a required string field is
missing (for a multipart form, indistinguishable from empty), a required
int field does not `Atoi`-parse (absent fields parse `""` and fail), or a
required int field parses to zero. -/
def requiredFieldBad (form : Form) : Prop :=
  formValue form "period_start" = "" ∨
  formValue form "period_end" = "" ∨
  formValue form "period_key" = "" ∨
  formValue form "fact_time" = "" ∨
  atoi? (formValue form "indicator_to_mo_id") = none ∨
  atoi? (formValue form "indicator_to_mo_id") = some 0 ∨
  atoi? (formValue form "value") = none ∨
  atoi? (formValue form "value") = some 0 ∨
  atoi? (formValue form "auth_user_id") = none ∨
  atoi? (formValue form "auth_user_id") = some 0

/-- The five int-typed form fields, in the order the handler parses
them. -/
inductive IntField where
  | indicatorToMoId
  | indicatorToMoFactId
  | value
  | isPlan
  | authUserId
deriving DecidableEq

/-- The form key of each int-typed field. -/
def IntField.formKey : IntField → String
  | .indicatorToMoId => "indicator_to_mo_id"
  | .indicatorToMoFactId => "indicator_to_mo_fact_id"
  | .value => "value"
  | .isPlan => "is_plan"
  | .authUserId => "auth_user_id"

/-- The handler's parse order over the int fields. -/
def intFieldOrder : List IntField :=
  [.indicatorToMoId, .indicatorToMoFactId, .value, .isPlan, .authUserId]

/-- The first int field, in parse order, whose form value fails
`strconv.Atoi`. -/
def firstParseError (form : Form) : Option IntField :=
  intFieldOrder.find? (fun f => (atoi? (formValue form (IntField.formKey f))).isNone)

/-- The spec's smoke-test submission: all ten fields present, required
ints non-zero, optional ints `"0"`. -/
def exampleForm : Form :=
  [("period_start", "2024-01-01"), ("period_end", "2024-01-31"),
   ("period_key", "monthly"), ("indicator_to_mo_id", "42"),
   ("indicator_to_mo_fact_id", "0"), ("value", "100"),
   ("fact_time", "2024-01-31T00:00:00Z"), ("is_plan", "0"),
   ("auth_user_id", "7"), ("comment", "")]

/-- The smoke-test submission with the optional field `is_plan` omitted. -/
def formWithoutIsPlan : Form :=
  [("period_start", "2024-01-01"), ("period_end", "2024-01-31"),
   ("period_key", "monthly"), ("indicator_to_mo_id", "42"),
   ("indicator_to_mo_fact_id", "0"), ("value", "100"),
   ("fact_time", "2024-01-31T00:00:00Z"),
   ("auth_user_id", "7"), ("comment", "")]

/-- The smoke-test submission with the optional field
`indicator_to_mo_fact_id` omitted. -/
def formWithoutFactId : Form :=
  [("period_start", "2024-01-01"), ("period_end", "2024-01-31"),
   ("period_key", "monthly"), ("indicator_to_mo_id", "42"),
   ("value", "100"),
   ("fact_time", "2024-01-31T00:00:00Z"), ("is_plan", "0"),
   ("auth_user_id", "7"), ("comment", "")]

/-- The smoke-test submission with the required field `value` omitted. -/
def formWithoutValue : Form :=
  [("period_start", "2024-01-01"), ("period_end", "2024-01-31"),
   ("period_key", "monthly"), ("indicator_to_mo_id", "42"),
   ("indicator_to_mo_fact_id", "0"),
   ("fact_time", "2024-01-31T00:00:00Z"), ("is_plan", "0"),
   ("auth_user_id", "7"), ("comment", "")]

/-- The smoke-test submission with negative required ints: `value` is
`-100`, `auth_user_id` is `-7`. -/
def negativeForm : Form :=
  [("period_start", "2024-01-01"), ("period_end", "2024-01-31"),
   ("period_key", "monthly"), ("indicator_to_mo_id", "42"),
   ("indicator_to_mo_fact_id", "0"), ("value", "-100"),
   ("fact_time", "2024-01-31T00:00:00Z"), ("is_plan", "0"),
   ("auth_user_id", "-7"), ("comment", "")]

/-- C3: For every submission in which any required field is missing, a
required numeric field is not integer-parsable, or a required integer
field parses to zero, the `/facts` handler responds HTTP 400 and appends
no message to the queue topic. -/
theorem c3_bad_required_field_rejected (form : Form) (sendErr : Option String)
    (h : requiredFieldBad form) :
    (factsHandler form sendErr).response.statusCode = 400 ∧
    (factsHandler form sendErr).produced = [] := by
  rcases hMo : atoi? (formValue form "indicator_to_mo_id") with _ | iMo
  · simp [factsHandler, hMo, HttpResponse.statusCode]
  rcases hFact : atoi? (formValue form "indicator_to_mo_fact_id") with _ | iFact
  · simp [factsHandler, hMo, hFact, HttpResponse.statusCode]
  rcases hVal : atoi? (formValue form "value") with _ | v
  · simp [factsHandler, hMo, hFact, hVal, HttpResponse.statusCode]
  rcases hPlan : atoi? (formValue form "is_plan") with _ | ip
  · simp [factsHandler, hMo, hFact, hVal, hPlan, HttpResponse.statusCode]
  rcases hUid : atoi? (formValue form "auth_user_id") with _ | uid
  · simp [factsHandler, hMo, hFact, hVal, hPlan, hUid, HttpResponse.statusCode]
  have hv : validateMessage (buildMessage form iMo iFact v ip uid) = false := by
    rcases h with h | h | h | h | h | h | h | h | h | h
    · simp [validateMessage, buildMessage, requiredString, h]
    · simp [validateMessage, buildMessage, requiredString, h]
    · simp [validateMessage, buildMessage, requiredString, h]
    · simp [validateMessage, buildMessage, requiredString, h]
    · rw [hMo] at h; exact absurd h (by simp)
    · rw [hMo] at h
      have : iMo = 0 := Option.some.inj h
      simp [validateMessage, buildMessage, requiredInt, this]
    · rw [hVal] at h; exact absurd h (by simp)
    · rw [hVal] at h
      have : v = 0 := Option.some.inj h
      simp [validateMessage, buildMessage, requiredInt, this]
    · rw [hUid] at h; exact absurd h (by simp)
    · rw [hUid] at h
      have : uid = 0 := Option.some.inj h
      simp [validateMessage, buildMessage, requiredInt, this]
  simp [factsHandler, hMo, hFact, hVal, hPlan, hUid, hv, HttpResponse.statusCode]

/-- Witness for C3: omitting `value` from the smoke-test submission is
rejected with HTTP 400 and nothing is appended. -/
theorem c3_bad_required_field_rejected_witness :
    requiredFieldBad formWithoutValue ∧
    ((factsHandler formWithoutValue none).response.statusCode = 400 ∧
     (factsHandler formWithoutValue none).produced = []) :=
  ⟨by unfold requiredFieldBad; decide,
   c3_bad_required_field_rejected formWithoutValue none
     (by unfold requiredFieldBad; decide)⟩

/-- Counterexample to C4: the handler `Atoi`-parses `indicator_to_mo_fact_id`
and `is_plan` unconditionally, so a submission that omits either one is
rejected with HTTP 400 (`""` fails `strconv.Atoi`) and nothing is
appended — it does not succeed as the claim states. -/
theorem c4_counterexample :
    (factsHandler formWithoutIsPlan none).response = .badRequest "Invalid is_plan" ∧
    (factsHandler formWithoutIsPlan none).produced = [] ∧
    (factsHandler formWithoutFactId none).response =
      .badRequest "Invalid indicator_to_mo_fact_id" ∧
    (factsHandler formWithoutFactId none).produced = [] :=
  ⟨rfl, rfl, rfl, rfl⟩

/-- C4 (amended): a submission whose required fields are present and valid
and whose fields `indicator_to_mo_fact_id` and `is_plan` are present and
integer-parsable succeeds, with no constraint on their values (zero, the
value the `required` marker treats as absent, is accepted for them); but
omitting either one is rejected with HTTP 400, because the handler parses
them unconditionally. -/
theorem c4_optional_fields_parseable_accepted (form : Form)
    (iMo iFact v ip uid : Int)
    (hMo : atoi? (formValue form "indicator_to_mo_id") = some iMo)
    (hFact : atoi? (formValue form "indicator_to_mo_fact_id") = some iFact)
    (hVal : atoi? (formValue form "value") = some v)
    (hPlan : atoi? (formValue form "is_plan") = some ip)
    (hUid : atoi? (formValue form "auth_user_id") = some uid)
    (hps : formValue form "period_start" ≠ "")
    (hpe : formValue form "period_end" ≠ "")
    (hpk : formValue form "period_key" ≠ "")
    (hft : formValue form "fact_time" ≠ "")
    (hMo0 : iMo ≠ 0) (hv0 : v ≠ 0) (huid0 : uid ≠ 0) :
    factsHandler form none =
      ⟨.okJson (.obj [("status", .str "ok")]),
       [Message.toJson (buildMessage form iMo iFact v ip uid)]⟩ := by
  have hv : validateMessage (buildMessage form iMo iFact v ip uid) = true := by
    simp [validateMessage, buildMessage, requiredString, requiredInt,
          hps, hpe, hpk, hft, hMo0, hv0, huid0]
  simp [factsHandler, hMo, hFact, hVal, hPlan, hUid, hv]

/-- Witness for the amended C4: the smoke-test submission carries both
optional fields as `"0"` and succeeds. -/
theorem c4_optional_fields_parseable_accepted_witness :
    factsHandler exampleForm none =
      ⟨.okJson (.obj [("status", .str "ok")]),
       [Message.toJson (buildMessage exampleForm 42 0 100 0 7)]⟩ :=
  c4_optional_fields_parseable_accepted exampleForm 42 0 100 0 7
    rfl rfl rfl rfl rfl (by decide) (by decide) (by decide) (by decide)
    (by decide) (by decide) (by decide)

/-- C8: For every valid submission on which the producer send succeeds,
the handler responds HTTP 200 with the JSON body `{"status": "ok"}` (as a
JSON object) and exactly one message — the serialized Fact Record — is
appended to the queue topic during the call. -/
theorem c8_success_response (form : Form) (iMo iFact v ip uid : Int)
    (hMo : atoi? (formValue form "indicator_to_mo_id") = some iMo)
    (hFact : atoi? (formValue form "indicator_to_mo_fact_id") = some iFact)
    (hVal : atoi? (formValue form "value") = some v)
    (hPlan : atoi? (formValue form "is_plan") = some ip)
    (hUid : atoi? (formValue form "auth_user_id") = some uid)
    (hval : validateMessage (buildMessage form iMo iFact v ip uid) = true) :
    (factsHandler form none).response.statusCode = 200 ∧
    (factsHandler form none).response =
      .okJson (.obj [("status", .str "ok")]) ∧
    (factsHandler form none).produced =
      [Message.toJson (buildMessage form iMo iFact v ip uid)] := by
  simp [factsHandler, hMo, hFact, hVal, hPlan, hUid, hval, HttpResponse.statusCode]

/-- Witness for C8 at the spec's smoke-test submission. -/
theorem c8_success_response_witness :
    (factsHandler exampleForm none).response.statusCode = 200 ∧
    (factsHandler exampleForm none).response =
      .okJson (.obj [("status", .str "ok")]) ∧
    (factsHandler exampleForm none).produced =
      [Message.toJson (buildMessage exampleForm 42 0 100 0 7)] :=
  c8_success_response exampleForm 42 0 100 0 7 rfl rfl rfl rfl rfl (by decide)

/-- C9: A submission whose required integer fields parse to any non-zero
integers — negative values included — and whose required strings are
present passes validation and is accepted and enqueued: validation imposes
no sign or range constraint beyond non-zero. -/
theorem c9_nonzero_ints_accepted (form : Form) (iMo iFact v ip uid : Int)
    (hMo : atoi? (formValue form "indicator_to_mo_id") = some iMo)
    (hFact : atoi? (formValue form "indicator_to_mo_fact_id") = some iFact)
    (hVal : atoi? (formValue form "value") = some v)
    (hPlan : atoi? (formValue form "is_plan") = some ip)
    (hUid : atoi? (formValue form "auth_user_id") = some uid)
    (hps : formValue form "period_start" ≠ "")
    (hpe : formValue form "period_end" ≠ "")
    (hpk : formValue form "period_key" ≠ "")
    (hft : formValue form "fact_time" ≠ "")
    (hMo0 : iMo ≠ 0) (hv0 : v ≠ 0) (huid0 : uid ≠ 0) :
    validateMessage (buildMessage form iMo iFact v ip uid) = true ∧
    (factsHandler form none).response.statusCode = 200 ∧
    (factsHandler form none).produced =
      [Message.toJson (buildMessage form iMo iFact v ip uid)] := by
  have hv : validateMessage (buildMessage form iMo iFact v ip uid) = true := by
    simp [validateMessage, buildMessage, requiredString, requiredInt,
          hps, hpe, hpk, hft, hMo0, hv0, huid0]
  refine ⟨hv, ?_⟩
  simp [factsHandler, hMo, hFact, hVal, hPlan, hUid, hv, HttpResponse.statusCode]

/-- Witness for C9: `value = -100` and `auth_user_id = -7` pass validation
and the submission is accepted. -/
theorem c9_nonzero_ints_accepted_witness :
    validateMessage (buildMessage negativeForm 42 0 (-100) 0 (-7)) = true ∧
    (factsHandler negativeForm none).response.statusCode = 200 ∧
    (factsHandler negativeForm none).produced =
      [Message.toJson (buildMessage negativeForm 42 0 (-100) 0 (-7))] :=
  c9_nonzero_ints_accepted negativeForm 42 0 (-100) 0 (-7)
    rfl rfl rfl rfl rfl (by decide) (by decide) (by decide) (by decide)
    (by decide) (by decide) (by decide)

/-- C10: integer-field parse errors are detected in the fixed program
order `indicator_to_mo_id`, `indicator_to_mo_fact_id`, `value`,
`is_plan`, `auth_user_id`; the first failing field in that order produces
an immediate HTTP 400 naming exactly that field, with nothing appended,
suppressing later parse errors and any structural-validation errors. -/
theorem c10_parse_error_order (form : Form) (sendErr : Option String)
    (f : IntField) (h : firstParseError form = some f) :
    factsHandler form sendErr =
      ⟨.badRequest ("Invalid " ++ IntField.formKey f), []⟩ := by
  rcases hMo : atoi? (formValue form "indicator_to_mo_id") with _ | iMo <;>
  rcases hFact : atoi? (formValue form "indicator_to_mo_fact_id") with _ | iFact <;>
  rcases hVal : atoi? (formValue form "value") with _ | v <;>
  rcases hPlan : atoi? (formValue form "is_plan") with _ | ip <;>
  rcases hUid : atoi? (formValue form "auth_user_id") with _ | uid <;>
  simp [firstParseError, intFieldOrder, List.find?, IntField.formKey,
        hMo, hFact, hVal, hPlan, hUid] at h <;>
  subst h <;>
  simp [factsHandler, hMo, hFact, hVal, hPlan, hUid, IntField.formKey]

/-- Witness for C10: `indicator_to_mo_id` parses but `value` and
`auth_user_id` do not; the response names `value`, the first failing field
in parse order. -/
theorem c10_parse_error_order_witness :
    factsHandler
      [("period_start", "2024-01-01"), ("indicator_to_mo_id", "42"),
       ("indicator_to_mo_fact_id", "0"), ("value", "abc"),
       ("is_plan", "0"), ("auth_user_id", "")] none =
      ⟨.badRequest ("Invalid " ++ IntField.formKey .value), []⟩ :=
  c10_parse_error_order
    [("period_start", "2024-01-01"), ("indicator_to_mo_id", "42"),
     ("indicator_to_mo_fact_id", "0"), ("value", "abc"),
     ("is_plan", "0"), ("auth_user_id", "")] none .value
    (by unfold firstParseError intFieldOrder; decide)

/-! ## Queue client factory (`startProducerWithRetry`) -/

/-- `startProducerWithRetry`, with the environment's successive
`sarama.NewSyncProducer` outcomes given as `attempt` (attempt `k` is the
`k`-th call) and the unbounded `for` loop run on explicit fuel. The result
carries the producer together with the list of `time.Sleep` durations (in
seconds) performed before it was obtained; `none` means the loop is still
retrying after `fuel` iterations — the caller stays blocked. -/
def startProducerWithRetry {P : Type} (attempt : Nat → Except String P) :
    Nat → Nat → Option (P × List Nat)
  | 0, _ => none
  | fuel + 1, k =>
    match attempt k with
    | .ok p => some (p, [])
    | .error _ =>
        (startProducerWithRetry attempt fuel (k + 1)).map
          (fun r => (r.1, 5 :: r.2))

/-- C7: whenever `startProducerWithRetry` returns, the producer it returns
is the result of a successful connection attempt — the one right after its
recorded failures — every earlier attempt failed, and every delay it slept
between attempts is exactly 5 seconds. -/
theorem c7_retry_returns_functional_producer {P : Type}
    (attempt : Nat → Except String P) (fuel k : Nat) (p : P) (ds : List Nat)
    (h : startProducerWithRetry attempt fuel k = some (p, ds)) :
    attempt (k + ds.length) = .ok p ∧
    (∀ j, j < ds.length → ∃ e, attempt (k + j) = .error e) ∧
    (∀ d ∈ ds, d = 5) := by
  induction fuel generalizing k ds with
  | zero => simp [startProducerWithRetry] at h
  | succ fuel ih =>
    rw [startProducerWithRetry] at h
    rcases ha : attempt k with e | q
    · rw [ha] at h
      rcases ho : startProducerWithRetry attempt fuel (k + 1) with _ | r
      · rw [ho] at h; simp at h
      · rw [ho] at h
        simp only [Option.map_some] at h
        rcases r with ⟨q, ds'⟩
        have hp : q = p := by
          have := congrArg (fun o => o.map Prod.fst) h
          simpa using this
        have hds : ds = 5 :: ds' := by
          have := congrArg (fun o => o.map Prod.snd) h
          simpa using this.symm
        subst hp; subst hds
        obtain ⟨h1, h2, h3⟩ := ih (k + 1) ds' ho
        refine ⟨?_, ?_, ?_⟩
        · have : k + (5 :: ds').length = k + 1 + ds'.length := by
            simp [List.length_cons]; omega
          rw [this]; exact h1
        · intro j hj
          rcases j with _ | j
          · exact ⟨e, by simpa using ha⟩
          · have hj' : j < ds'.length := by simpa [List.length_cons] using hj
            obtain ⟨e', he'⟩ := h2 j hj'
            exact ⟨e', by rw [show k + (j + 1) = k + 1 + j by omega]; exact he'⟩
        · intro d hd
          rcases List.mem_cons.mp hd with h5 | hd'
          · exact h5
          · exact h3 d hd'
    · rw [ha] at h
      simp only [Option.some.injEq, Prod.mk.injEq] at h
      obtain ⟨hp, hds⟩ := h
      subst hp; subst hds
      exact ⟨by simpa using ha, by intro j hj; simp at hj, by intro d hd; simp at hd⟩

/-- A sample environment for the retry loop: the broker refuses the first
two connection attempts and accepts the third. -/
def sampleAttempts : Nat → Except String Nat :=
  fun k => if k < 2 then .error "dial tcp: connection refused" else .ok 7

/-- Witness for C7: with two initial failures the loop returns the third
attempt's producer after sleeping 5 seconds twice. -/
theorem c7_retry_returns_functional_producer_witness :
    sampleAttempts (0 + ([5, 5] : List Nat).length) = .ok 7 ∧
    (∀ j, j < ([5, 5] : List Nat).length → ∃ e, sampleAttempts (0 + j) = .error e) ∧
    (∀ d ∈ ([5, 5] : List Nat), d = 5) :=
  c7_retry_returns_functional_producer sampleAttempts 4 0 7 [5, 5] rfl

/-! ## Consumer group worker (`Consumer.ConsumeClaim`) -/

/-- The observable outcome of the downstream forwarder call for one
message: `client.Do` fails (network error or the 10-second timeout),
`io.ReadAll` on the body fails, the body is not a JSON object
(`json.Unmarshal` into `map[string]interface` fails), or a decoded JSON
object. -/
inductive Downstream where
  | transportError
  | bodyUnreadable
  | bodyNotJson
  | response (fields : List (String × Json))

/-- One event the claim loop's `select` can observe: the claim channel
closes (`ok == false`), the session context is cancelled, or a message
arrives (its partition offset, its raw JSON payload, and the downstream
outcome the forwarder would observe for it). -/
inductive ClaimEvent where
  | chanClosed
  | cancelled
  | msg (offset : Nat) (raw : Json) (down : Downstream)

/-- Why a run of the claim loop ended: the channel-closed branch, the
cancellation branch, an early `return nil` from inside the message branch,
or the trace ran out with the loop still blocked waiting. -/
inductive StopReason where
  | chanClosed
  | cancelled
  | earlyReturn
  | waiting
deriving DecidableEq

/-- The observable result of running the claim loop on a trace: the
offsets marked via `session.MarkMessage` (in order), the number of
messages received from the channel, and why the loop stopped. -/
structure ClaimRun where
  commits : List Nat
  received : Nat
  stop : StopReason

/-- The `responseMap["STATUS"] == "OK"` check: the decoded response object
must bind `STATUS` (absent keys give `nil`) to exactly the string
`"OK"` — a Go `interface` comparison, so any non-string value is
unequal. -/
def statusOk (fields : List (String × Json)) : Bool :=
  match jsonObjGet fields "STATUS" with
  | some (.str s) => s == "OK"
  | _ => false

/-- `Consumer.ConsumeClaim`, run over an explicit event trace. Per
message: a payload that fails to decode is logged and skipped
(`continue`, no mark); a transport error is logged and skipped
(`continue`, no mark); an unreadable or non-JSON response body is logged
and the function does `return nil` (no mark, loop over); a decoded
response marks the message's offset exactly when `STATUS == "OK"`.
(The `http.NewRequest` error branch is dead for this fixed literal URL and
is not modelled.) -/
def stepMessage (offset : Nat) (raw : Json) (down : Downstream)
    (r : ClaimRun) : ClaimRun :=
  match Message.fromJson? raw, down with
  | none, _ => ⟨r.commits, r.received + 1, r.stop⟩
  | some _, .transportError => ⟨r.commits, r.received + 1, r.stop⟩
  | some _, .bodyUnreadable => ⟨[], 1, .earlyReturn⟩
  | some _, .bodyNotJson => ⟨[], 1, .earlyReturn⟩
  | some _, .response fields =>
      if statusOk fields then
        ⟨offset :: r.commits, r.received + 1, r.stop⟩
      else
        ⟨r.commits, r.received + 1, r.stop⟩

def consumeClaim : List ClaimEvent → ClaimRun
  | [] => ⟨[], 0, .waiting⟩
  | .chanClosed :: _ => ⟨[], 0, .chanClosed⟩
  | .cancelled :: _ => ⟨[], 0, .cancelled⟩
  | .msg offset raw down :: rest =>
      stepMessage offset raw down (consumeClaim rest)

/-- C1: every offset the claim loop marks (commits) comes from a delivered
message whose payload decoded successfully and whose downstream response
was a readable JSON object with `STATUS` bound to exactly `"OK"`; no
decode failure, transport error or timeout, unreadable or non-JSON body,
or absent/other `STATUS` value ever marks an offset. -/
theorem c1_commit_only_after_ok (events : List ClaimEvent) (o : Nat)
    (h : o ∈ (consumeClaim events).commits) :
    ∃ raw fields m, ClaimEvent.msg o raw (.response fields) ∈ events ∧
      Message.fromJson? raw = some m ∧ statusOk fields = true := by
  induction events with
  | nil => simp [consumeClaim] at h
  | cons ev rest ih =>
    cases ev with
    | chanClosed => simp [consumeClaim] at h
    | cancelled => simp [consumeClaim] at h
    | msg offset raw down =>
      rw [consumeClaim] at h
      rcases hdec : Message.fromJson? raw with _ | m
      · simp [stepMessage, hdec] at h
        obtain ⟨raw', fields', m', hmem, hd, hs⟩ := ih h
        exact ⟨raw', fields', m', List.mem_cons_of_mem _ hmem, hd, hs⟩
      · cases down with
        | transportError =>
            simp [stepMessage, hdec] at h
            obtain ⟨raw', fields', m', hmem, hd, hs⟩ := ih h
            exact ⟨raw', fields', m', List.mem_cons_of_mem _ hmem, hd, hs⟩
        | bodyUnreadable => simp [stepMessage, hdec] at h
        | bodyNotJson => simp [stepMessage, hdec] at h
        | response fields =>
            rcases hst : statusOk fields with _ | _
            · simp [stepMessage, hdec, hst] at h
              obtain ⟨raw', fields', m', hmem, hd, hs⟩ := ih h
              exact ⟨raw', fields', m', List.mem_cons_of_mem _ hmem, hd, hs⟩
            · simp [stepMessage, hdec, hst] at h
              rcases h with ho | ho
              · exact ⟨raw, fields, m, by simp [ho], hdec, hst⟩
              · obtain ⟨raw', fields', m', hmem, hd, hs⟩ := ih ho
                exact ⟨raw', fields', m', List.mem_cons_of_mem _ hmem, hd, hs⟩

/-- A valid sample queue payload: the serialized smoke-test Fact Record. -/
def sampleRaw : Json :=
  Message.toJson (buildMessage exampleForm 42 0 100 0 7)

/-- Witness for C1: a one-message trace whose downstream response is
`STATUS: "OK"` commits offset 7, and that commit indeed traces back to an
OK response. -/
theorem c1_commit_only_after_ok_witness :
    ∃ raw fields m,
      ClaimEvent.msg 7 raw (.response fields) ∈
        [ClaimEvent.msg 7 sampleRaw (.response [("STATUS", Json.str "OK")])] ∧
      Message.fromJson? raw = some m ∧ statusOk fields = true :=
  c1_commit_only_after_ok
    [ClaimEvent.msg 7 sampleRaw (.response [("STATUS", Json.str "OK")])] 7
    (by rw [show (consumeClaim
          [ClaimEvent.msg 7 sampleRaw (.response [("STATUS", Json.str "OK")])]).commits
        = [7] from rfl]; simp)

/-- A trace refuting C2: the first message's downstream response body is
not JSON, then a second message with an OK response is still pending in
the channel. -/
def c2Trace : List ClaimEvent :=
  [ClaimEvent.msg 0 sampleRaw .bodyNotJson,
   ClaimEvent.msg 1 sampleRaw (.response [("STATUS", Json.str "OK")])]

/-- Counterexample to C2: on a malformed (non-JSON) response body the loop
does `return nil` instead of continuing — only one of the two channel
messages is ever received, nothing is committed, and the loop terminates
even though the claim channel never closed and the session was never
cancelled. -/
theorem c2_counterexample :
    (consumeClaim c2Trace).received = 1 ∧
    (consumeClaim c2Trace).commits = [] ∧
    (consumeClaim c2Trace).stop = .earlyReturn ∧
    StopReason.earlyReturn ≠ StopReason.chanClosed ∧
    StopReason.earlyReturn ≠ StopReason.cancelled :=
  ⟨rfl, rfl, rfl, by decide, by decide⟩

/-- C2 (amended): on a network/transport error or a non-OK decoded status
the loop logs, does not mark the offset, and continues with the next
channel event; but on an unreadable or non-JSON response body the loop
logs, does not mark the offset, and returns from the claim handler
(`return nil`), terminating this claim's loop without touching the rest of
the channel; the channel-closed and cancellation events also terminate
it. -/
theorem c2_failure_mode_behavior (offset : Nat) (raw : Json) (m : Message)
    (down : Downstream) (rest : List ClaimEvent)
    (hdec : Message.fromJson? raw = some m) :
    ((down = .transportError ∨
      (∃ fields, down = .response fields ∧ statusOk fields = false)) →
        consumeClaim (.msg offset raw down :: rest) =
          ⟨(consumeClaim rest).commits, (consumeClaim rest).received + 1,
           (consumeClaim rest).stop⟩) ∧
    ((down = .bodyUnreadable ∨ down = .bodyNotJson) →
        consumeClaim (.msg offset raw down :: rest) = ⟨[], 1, .earlyReturn⟩) := by
  constructor
  · rintro (hd | ⟨fields, hd, hst⟩) <;> subst hd <;>
      rw [consumeClaim] <;> simp [stepMessage, hdec]
    simp [hst]
  · rintro (hd | hd) <;> subst hd <;>
      rw [consumeClaim] <;> simp [stepMessage, hdec]

/-- Witness for the amended C2: a transport error skips to the rest of the
trace (here empty: the loop keeps waiting), and an unreadable body ends
the loop early. -/
theorem c2_failure_mode_behavior_witness :
    consumeClaim [ClaimEvent.msg 3 sampleRaw .transportError] =
      ⟨(consumeClaim []).commits, (consumeClaim []).received + 1,
       (consumeClaim []).stop⟩ ∧
    consumeClaim [ClaimEvent.msg 3 sampleRaw .bodyUnreadable] =
      ⟨[], 1, .earlyReturn⟩ :=
  ⟨(c2_failure_mode_behavior 3 sampleRaw (buildMessage exampleForm 42 0 100 0 7)
      .transportError [] rfl).1 (Or.inl rfl),
   (c2_failure_mode_behavior 3 sampleRaw (buildMessage exampleForm 42 0 100 0 7)
      .bodyUnreadable [] rfl).2 (Or.inl rfl)⟩

/-! ## Downstream request building (`url.Values`, `Encode`, `QueryEscape`) -/

/-- An upper-case hexadecimal digit, as `net/url` percent-encoding
emits. -/
def upperHexDigit (n : Nat) : Char :=
  if n < 10 then Char.ofNat (48 + n) else Char.ofNat (55 + n)

/-- The UTF-8 bytes of one character; Go strings are byte strings and
`QueryEscape` works byte-wise. -/
def utf8Bytes (c : Char) : List Nat :=
  let n := c.toNat
  if n < 128 then [n]
  else if n < 2048 then [192 + n / 64, 128 + n % 64]
  else if n < 65536 then [224 + n / 4096, 128 + (n / 64) % 64, 128 + n % 64]
  else [240 + n / 262144, 128 + (n / 4096) % 64, 128 + (n / 64) % 64,
        128 + n % 64]

/-- The bytes `QueryEscape` leaves unescaped: ASCII alphanumerics and
`-`, `_`, `.`, `~`. -/
def isUnescapedQueryByte (b : Nat) : Bool :=
  (65 ≤ b && b ≤ 90) || (97 ≤ b && b ≤ 122) || (48 ≤ b && b ≤ 57) ||
  b == 45 || b == 95 || b == 46 || b == 126

/-- `QueryEscape` of one byte: space becomes `+`, unreserved bytes pass
through, everything else becomes `%XX` with upper-case hex. -/
def escapeByte (b : Nat) : String :=
  if b == 32 then "+"
  else if isUnescapedQueryByte b then String.mk [Char.ofNat b]
  else String.mk ['%', upperHexDigit (b / 16), upperHexDigit (b % 16)]

/-- `url.QueryEscape`. -/
def queryEscape (s : String) : String :=
  String.join (s.data.map (fun c => String.join ((utf8Bytes c).map escapeByte)))

/-- `strconv.Itoa`: decimal rendering with a leading `-` for negatives. -/
def itoa (n : Int) : String := toString n

/-- `url.Values.Set`: bind the key to the single given value, replacing
any existing binding. The map is modelled as an association list with
unique keys; Go's map iteration order is immaterial because `Encode`
sorts. -/
def valuesSet (vs : List (String × String)) (k v : String) :
    List (String × String) :=
  if vs.any (fun p => p.1 == k) then
    vs.map (fun p => if p.1 == k then (k, v) else p)
  else vs ++ [(k, v)]

/-- The `formData` the claim loop builds for a decoded message: the ten
`formData.Set` calls of `ConsumeClaim` in program order, ints rendered
with `strconv.Itoa`. -/
def buildFormData (data : Message) : List (String × String) :=
  valuesSet (valuesSet (valuesSet (valuesSet (valuesSet (valuesSet
    (valuesSet (valuesSet (valuesSet (valuesSet []
      "period_start" data.PeriodStart)
      "period_end" data.PeriodEnd)
      "period_key" data.PeriodKey)
      "indicator_to_mo_id" (itoa data.IndicatorToMoID))
      "indicator_to_mo_fact_id" (itoa data.IndicatorToMoFactID))
      "value" (itoa data.Value))
      "fact_time" data.FactTime)
      "is_plan" (itoa data.IsPlan))
      "auth_user_id" (itoa data.AuthUserID))
      "comment" data.Comment

/-- The key ordering `url.Values.Encode` sorts by. -/
def pairLe (p q : String × String) : Bool := decide (p.1 ≤ q.1)

/-- `url.Values.Encode`: entries sorted by key, each rendered as
`escape(k)=escape(v)`, joined with `&`. (Go sorts the key slice and emits
each key's values; with the unique keys `Set` maintains this equals
sorting the entry list by key.) -/
def urlValuesEncode (vs : List (String × String)) : String :=
  String.intercalate "&"
    ((vs.mergeSort pairLe).map
      (fun p => queryEscape p.1 ++ "=" ++ queryEscape p.2))

theorem pairLe_trans (a b c : String × String) :
    pairLe a b = true → pairLe b c = true → pairLe a c = true := by
  simp only [pairLe, decide_eq_true_eq]
  exact le_trans

theorem pairLe_total (a b : String × String) :
    (pairLe a b || pairLe b a) = true := by
  simp only [pairLe, Bool.or_eq_true, decide_eq_true_eq]
  exact le_total a.1 b.1

/-- Two sorted association lists that are permutations of each other and
have no duplicate keys are equal: keys decide the order completely. -/
theorem sorted_perm_nodupKeys_eq (l₁ : List (String × String)) :
    ∀ l₂ : List (String × String), l₁.Perm l₂ →
      l₁.Pairwise (fun p q => pairLe p q = true) →
      l₂.Pairwise (fun p q => pairLe p q = true) →
      (l₁.map Prod.fst).Nodup → l₁ = l₂ := by
  induction l₁ with
  | nil =>
    intro l₂ hperm _ _ _
    exact (hperm.symm.eq_nil).symm
  | cons a t₁ ih =>
    intro l₂ hperm hp₁ hp₂ hnd
    cases l₂ with
    | nil =>
      have := hperm.eq_nil
      simp at this
    | cons b t₂ =>
      by_cases hab : a = b
      · subst hab
        have ht : t₁.Perm t₂ := hperm.cons_inv
        rw [List.map_cons, List.nodup_cons] at hnd
        rw [ih t₂ ht (List.Pairwise.of_cons hp₁) (List.Pairwise.of_cons hp₂)
            hnd.2]
      · exfalso
        have hbin : b ∈ a :: t₁ := hperm.symm.subset (List.mem_cons_self b t₂)
        have hbt₁ : b ∈ t₁ := by
          rcases List.mem_cons.mp hbin with hb | hb
          · exact absurd hb.symm hab
          · exact hb
        have hain : a ∈ b :: t₂ := hperm.subset (List.mem_cons_self a t₁)
        have hat₂ : a ∈ t₂ := by
          rcases List.mem_cons.mp hain with ha | ha
          · exact absurd ha hab
          · exact ha
        have h1 : a.1 ≤ b.1 := by
          have := List.rel_of_pairwise_cons hp₁ hbt₁
          simpa [pairLe] using this
        have h2 : b.1 ≤ a.1 := by
          have := List.rel_of_pairwise_cons hp₂ hat₂
          simpa [pairLe] using this
        have hkey : a.1 = b.1 := le_antisymm h1 h2
        rw [List.map_cons, List.nodup_cons] at hnd
        exact hnd.1 (hkey ▸ List.mem_map_of_mem Prod.fst hbt₁)

/-- Sorting by key is invariant under permutation when keys are unique. -/
theorem mergeSort_eq_of_perm_of_nodupKeys (l₁ l₂ : List (String × String))
    (h : l₁.Perm l₂) (hnd : (l₂.map Prod.fst).Nodup) :
    l₁.mergeSort pairLe = l₂.mergeSort pairLe := by
  have hp : (l₁.mergeSort pairLe).Perm l₂ := (l₁.mergeSort_perm pairLe).trans h
  refine sorted_perm_nodupKeys_eq (l₁.mergeSort pairLe) (l₂.mergeSort pairLe)
    (hp.trans (l₂.mergeSort_perm pairLe).symm)
    (List.sorted_mergeSort pairLe_trans pairLe_total l₁)
    (List.sorted_mergeSort pairLe_trans pairLe_total l₂) ?_
  exact ((hp.map Prod.fst).nodup_iff).mpr hnd

/-- The form data's keys, in `Set` order: the ten distinct field names. -/
theorem buildFormData_keys (data : Message) :
    (buildFormData data).map Prod.fst =
      ["period_start", "period_end", "period_key", "indicator_to_mo_id",
       "indicator_to_mo_fact_id", "value", "fact_time", "is_plan",
       "auth_user_id", "comment"] := by
  simp [buildFormData, valuesSet]

/-- C6: building the downstream request body for a decoded message is
deterministic: however the underlying map hands its entries to `Encode`
(any permutation — Go map iteration order is randomized), the
form-encoded body is the same string, a function of the Fact Record
alone, with integers rendered as decimal strings by `strconv.Itoa`
inside `buildFormData`. -/
theorem c6_request_deterministic (data : Message)
    (vs : List (String × String)) (h : vs.Perm (buildFormData data)) :
    urlValuesEncode vs = urlValuesEncode (buildFormData data) := by
  have hnd : ((buildFormData data).map Prod.fst).Nodup := by
    rw [buildFormData_keys]
    decide
  unfold urlValuesEncode
  rw [mergeSort_eq_of_perm_of_nodupKeys vs (buildFormData data) h hnd]

/-- Witness for C6: handing `Encode` the smoke-test record's form entries
in reversed order yields the same encoded body. -/
theorem c6_request_deterministic_witness :
    urlValuesEncode ((buildFormData (buildMessage exampleForm 42 0 100 0 7)).reverse) =
      urlValuesEncode (buildFormData (buildMessage exampleForm 42 0 100 0 7)) :=
  c6_request_deterministic (buildMessage exampleForm 42 0 100 0 7) _
    (List.reverse_perm _)
